import Mathlib

/-!
Verification of `HubblePrinciple.py`: a shallow embedding, over exact rational
arithmetic, of the unit conversions, the expansion-rate models (`Universe` and
its subclasses), the displacement tracker (`MovingObject`), the simulation
driver (`SimulateConstantVelocityTravel`) and the entry point (`main`).
Python floats are embedded as `ℚ`; the while loop is embedded with explicit
fuel; the plotting collaborator is embedded as a record of the calls made to it.
-/

namespace Hubble

/-! ## Constants (`HubblePrinciple.py` lines 10-13) -/

def metresInParsec : ℚ := 3.08567758149137e16

def parsecsInMpc : ℚ := 1e6

def speedOfLight : ℚ := 299792458

/-! ## Unit conversion functions (lines 15-28) -/

def metresToMpc (metres : ℚ) : ℚ := metres / (metresInParsec * parsecsInMpc)

def hubbleToSi (hubble : ℚ) : ℚ := hubble / (metresInParsec * parsecsInMpc)

def MpcToMetres (distanceMpc : ℚ) : ℚ := distanceMpc * metresInParsec * parsecsInMpc

def yearsToSeconds (years : ℚ) : ℚ := years * 365.25 * 60 * 60 * 24

def secondsToYears (seconds : ℚ) : ℚ := seconds / (60 * 60 * 24 * 365.25)

/-! ## Expansion-rate models (lines 30-62)

A `Universe` is embedded as its descriptive name together with its `Hubble`
method. Each Python subclass becomes one concrete value whose `Hubble` field
captures the constructor-computed coefficients. -/

structure Universe where
  name : String
  Hubble : ℚ → ℚ
deriving Inhabited

def StaticUniverse : Universe :=
  { name := "Static Hubble parameter"
    Hubble := fun _ => hubbleToSi 70e3 }

def HubbleConstantTimeZero : ℚ := hubbleToSi 1e3

def TimeNowSeconds : ℚ := yearsToSeconds 13.8e9

def HubbleConstantRateOfIncrease : ℚ :=
  (hubbleToSi 70e3 - HubbleConstantTimeZero) / TimeNowSeconds

def LinearIncreaseWithTimeUniverse : Universe :=
  { name := "Hubble parameter increasing linearly with time"
    Hubble := fun Time => HubbleConstantRateOfIncrease * Time + HubbleConstantTimeZero }

/-- The `universes` dictionary (line 80); a missing key (Python `KeyError`)
is embedded as `none`. -/
def universes (key : String) : Option Universe :=
  if key = "static" then some StaticUniverse
  else if key = "linear" then some LinearIncreaseWithTimeUniverse
  else none

/-! ## Integrator -/

/-- Modelled from the spec: `RK4FirstOrder` is imported from module `Core`,
which is not among the sources. Spec §4.3: "the classical four-stage
weighted-average scheme, evaluating `f` at `t`, `t+h/2` (twice, with
intermediate state updates), and `t+h`, then combining stage slopes with
weights `1,2,2,1` scaled by `h/6`", called as `RK4FirstOrder(y, h, f, t)`
(line 76 of `HubblePrinciple.py`). -/
def RK4FirstOrder (y h : ℚ) (f : ℚ → ℚ → ℚ) (t : ℚ) : ℚ :=
  let k1 := f t y
  let k2 := f (t + h / 2) (y + h / 2 * k1)
  let k3 := f (t + h / 2) (y + h / 2 * k2)
  let k4 := f (t + h) (y + h * k3)
  y + h / 6 * (k1 + 2 * k2 + 2 * k3 + k4)

/-! ## Displacement tracker (`MovingObject`, lines 66-76) -/

structure MovingObject where
  Displacement : ℚ
  Velocity : ℚ
  Universe : Universe

def MovingObject.RateOfChangeOfDisplacement (o : MovingObject) (Time Displacement : ℚ) : ℚ :=
  o.Universe.Hubble Time * Displacement - o.Velocity

def MovingObject.Update (o : MovingObject) (TimeStep Time : ℚ) : MovingObject :=
  { o with
    Displacement :=
      RK4FirstOrder o.Displacement TimeStep
        (fun time Displacement => o.RateOfChangeOfDisplacement time Displacement) Time }

/-! ## Simulation driver (`SimulateConstantVelocityTravel`, lines 82-130)

The loop state carries the two trackers, the mutable loop variables and the
four sample lists. One `simBody` application is one iteration of the `while`
body (lines 108-118); `simLoop` is the `while` loop itself, with fuel bounding
the number of iterations. -/

structure SimState where
  movingObject : MovingObject
  startingPoint : MovingObject
  time : ℚ
  TimeStep : ℚ
  Displacements : List ℚ
  DistancesFromStart : List ℚ
  StartAndEndSeparation : List ℚ
  Timestamps : List ℚ
  terminationCondition : Bool

def simBody (s : SimState) : SimState :=
  let mo := s.movingObject.Update s.TimeStep s.time
  let sp := s.startingPoint.Update s.TimeStep s.time
  let Timestamps := s.Timestamps ++ [secondsToYears s.time]
  let time := s.time + s.TimeStep
  let Displacements := s.Displacements ++ [metresToMpc mo.Displacement]
  let DistancesFromStart := s.DistancesFromStart ++ [metresToMpc sp.Displacement]
  let StartAndEndSeparation :=
    s.StartAndEndSeparation ++ [metresToMpc mo.Displacement + metresToMpc sp.Displacement]
  let cond1 : Bool :=
    if 1 < Displacements.length then
      decide (Displacements.getD (Displacements.length - 2) 0 <
        Displacements.getD (Displacements.length - 1) 0)
    else s.terminationCondition
  let cond : Bool := if mo.Displacement < 0 then true else cond1
  { movingObject := mo
    startingPoint := sp
    time := time
    TimeStep := s.TimeStep
    Displacements := Displacements
    DistancesFromStart := DistancesFromStart
    StartAndEndSeparation := StartAndEndSeparation
    Timestamps := Timestamps
    terminationCondition := cond }

def simLoop : Nat → SimState → SimState
  | 0, s => s
  | fuel + 1, s =>
    if s.terminationCondition = false then simLoop fuel (simBody s) else s

/-- The state on entry to the loop: lines 83-99 and 106. -/
def simInit (InitialDisplacement : ℚ) (u : Universe) : SimState :=
  { movingObject := ⟨InitialDisplacement, speedOfLight, u⟩
    startingPoint := ⟨0, -speedOfLight, u⟩
    time := 0
    TimeStep := 2 * InitialDisplacement / speedOfLight / 1e6
    Displacements := []
    DistancesFromStart := []
    StartAndEndSeparation := []
    Timestamps := []
    terminationCondition := false }

/-! ## The visualization collaborator (lines 120-130)

Each `plt.plot` call is one labelled curve; `plt.xlabel`, `plt.ylabel` and
`plt.title` become the remaining fields. -/

structure Curve where
  label : String
  xs : List ℚ
  ys : List ℚ

structure PlotSpec where
  curves : List Curve
  xlabel : String
  ylabel : String
  title : String

def SimulateConstantVelocityTravel (fuel : Nat) (InitialDisplacement : ℚ)
    (hubbleModel : String) : Option (SimState × PlotSpec) :=
  (universes hubbleModel).map (fun u =>
    let s := simLoop fuel (simInit InitialDisplacement u)
    (s,
      { curves :=
          [⟨"distance to destination", s.Timestamps, s.Displacements⟩,
           ⟨"distance from start to end", s.Timestamps, s.StartAndEndSeparation⟩]
        xlabel := "time (years)"
        ylabel := "displacement (Mpc)"
        title := u.name }))

/-! ## Entry point (`main`, lines 132-142)

`float(argv[1])` raises `IndexError` when the argument is absent and
`ValueError` when it is non-numeric; both are embedded as `Except.error`.
The Python `float` builtin itself is external, so `main` is parameterized
over the string-to-number parser it uses. -/

inductive MainError where
  | missingArg
  | nonNumeric
  | unknownModel
deriving DecidableEq

def main (parseFloat : String → Option ℚ) (fuel : Nat) (argv : List String) :
    Except MainError (List (SimState × PlotSpec)) :=
  match argv.get? 1 with
  | none => .error .missingArg
  | some a =>
    match parseFloat a with
    | none => .error .nonNumeric
    | some distance =>
      let InitialDisplacement := MpcToMetres distance
      match SimulateConstantVelocityTravel fuel InitialDisplacement "static",
            SimulateConstantVelocityTravel fuel InitialDisplacement "linear" with
      | some r1, some r2 => .ok [r1, r2]
      | _, _ => .error .unknownModel

/-! ## Helper lemmas -/

lemma RK4FirstOrder_zero_step (y : ℚ) (f : ℚ → ℚ → ℚ) (t : ℚ) :
    RK4FirstOrder y 0 f t = y := by
  simp [RK4FirstOrder]

lemma MovingObject.Update_zero_step (o : MovingObject) (t : ℚ) : o.Update 0 t = o := by
  cases o
  simp [MovingObject.Update, RK4FirstOrder_zero_step]

lemma getD_replicate_zero (n i : Nat) : (List.replicate n (0 : ℚ)).getD i 0 = 0 := by
  rw [List.getD_eq_getElem?_getD]
  rcases Nat.lt_or_ge i n with h | h
  · simp [List.getElem?_replicate, h]
  · rw [List.getElem?_eq_none (by simpa using h)]
    rfl

/-- When the termination flag stays `false` for the whole fuel budget, the
embedded `while` loop is plain iteration of its body. -/
lemma simLoop_eq_iterate (fuel : Nat) (s : SimState)
    (h : ∀ j, j < fuel → (simBody^[j] s).terminationCondition = false) :
    simLoop fuel s = simBody^[fuel] s := by
  induction fuel generalizing s with
  | zero => rfl
  | succ n ih =>
    have h0 : s.terminationCondition = false := h 0 (Nat.succ_pos n)
    rw [simLoop, if_pos h0]
    rw [ih (simBody s) (fun j hj => by
      rw [← Function.iterate_succ_apply]
      exact h (j + 1) (Nat.succ_lt_succ hj))]
    rw [Function.iterate_succ_apply]

/-- The run started from initial displacement `0` (the static model): the time
step is `0`, so every iteration leaves both trackers at displacement `0`,
appends a `0` sample to every list, and leaves the termination flag `false`. -/
lemma zero_run_spec (k : Nat) :
    simBody^[k] (simInit 0 StaticUniverse) =
      { movingObject := ⟨0, speedOfLight, StaticUniverse⟩
        startingPoint := ⟨0, -speedOfLight, StaticUniverse⟩
        time := 0
        TimeStep := 0
        Displacements := List.replicate k 0
        DistancesFromStart := List.replicate k 0
        StartAndEndSeparation := List.replicate k 0
        Timestamps := List.replicate k 0
        terminationCondition := false } := by
  induction k with
  | zero =>
    simp only [Function.iterate_zero, id_eq, simInit, List.replicate]
    norm_num [speedOfLight]
  | succ n ih =>
    rw [Function.iterate_succ_apply', ih]
    simp only [simBody, MovingObject.Update_zero_step]
    norm_num [metresToMpc, secondsToYears, List.replicate_succ']
    intro hn
    rw [List.getElem_append_left (by simpa using by omega)]
    simp

/-! ## C1: the loop's termination condition -/

/-- The termination condition as the spec's Policy A describes it: stop when
the destination displacement samples are "no longer strictly decreasing"
(the newest sample fails to be strictly below the one prior, equality
included), or when the destination displacement has crossed zero. Stated from
the spec's words, for comparison against the code's condition. -/
def policyATermination (Displacements : List ℚ) (destinationDisplacement : ℚ) : Bool :=
  (decide (1 < Displacements.length) &&
    !(decide (Displacements.getD (Displacements.length - 1) 0 <
        Displacements.getD (Displacements.length - 2) 0))) ||
  decide (destinationDisplacement < 0)

/-- C1, counterexample. The claim says the loop stops as soon as the
displacement samples are "no longer strictly decreasing", equal consecutive
samples included. On the run with initial separation `0` (static model, a
legal input: `main` accepts any numeric argument), the time step is `0` and
every sample equals `0`: after two iterations the claimed Policy A condition
holds (two equal consecutive samples, displacement not negative), yet the
code's termination flag is still `false` and the loop keeps running — with
fuel 4 it performs all 4 iterations. -/
theorem c1_counterexample :
    policyATermination (simBody^[2] (simInit 0 StaticUniverse)).Displacements
        (simBody^[2] (simInit 0 StaticUniverse)).movingObject.Displacement = true ∧
    (simBody^[2] (simInit 0 StaticUniverse)).terminationCondition = false ∧
    (simLoop 4 (simInit 0 StaticUniverse)).Displacements.length = 4 := by
  have hloop : simLoop 4 (simInit 0 StaticUniverse) = simBody^[4] (simInit 0 StaticUniverse) :=
    simLoop_eq_iterate 4 _ (fun j _ => by rw [zero_run_spec j])
  refine ⟨?_, ?_, ?_⟩
  · rw [zero_run_spec 2]
    simp [policyATermination, getD_replicate_zero]
  · rw [zero_run_spec 2]
  · rw [hloop, zero_run_spec 4]
    simp

/-- C1, amended: after a loop iteration (entered with the termination flag
still `false`), the flag is set — i.e. the driver loop stops — exactly when
the newest destination displacement sample strictly exceeds the sample one
step prior, or the destination displacement has become strictly negative;
equal consecutive samples do not stop the loop, and no other condition stops
it. -/
theorem c1_theorem (s : SimState) (hs : s.terminationCondition = false) :
    ((simBody s).terminationCondition = true ↔
      (1 < (simBody s).Displacements.length ∧
        (simBody s).Displacements.getD ((simBody s).Displacements.length - 2) 0 <
          (simBody s).Displacements.getD ((simBody s).Displacements.length - 1) 0) ∨
      (simBody s).movingObject.Displacement < 0) := by
  simp only [simBody, hs]
  split_ifs with hneg hlen
  · simp [hneg]
  · simp [hlen, hneg]
    intro _
    simp at hlen
    omega
  · simp [hlen, hneg]
    intro h
    simp at hlen
    simp [hlen] at h

/-- C1, witness for the amended theorem at the concrete state
`simInit 1 StaticUniverse`. -/
theorem c1_witness :
    ((simBody (simInit 1 StaticUniverse)).terminationCondition = true ↔
      (1 < (simBody (simInit 1 StaticUniverse)).Displacements.length ∧
        (simBody (simInit 1 StaticUniverse)).Displacements.getD
            ((simBody (simInit 1 StaticUniverse)).Displacements.length - 2) 0 <
          (simBody (simInit 1 StaticUniverse)).Displacements.getD
            ((simBody (simInit 1 StaticUniverse)).Displacements.length - 1) 0) ∨
      (simBody (simInit 1 StaticUniverse)).movingObject.Displacement < 0) :=
  c1_theorem (simInit 1 StaticUniverse) rfl

lemma simBody_TimeStep (s : SimState) : (simBody s).TimeStep = s.TimeStep := rfl

lemma iterate_TimeStep (k : Nat) (s : SimState) : (simBody^[k] s).TimeStep = s.TimeStep := by
  induction k with
  | zero => rfl
  | succ n ih => rw [Function.iterate_succ_apply', simBody_TimeStep, ih]

/-- C2: a run starts in the running state (termination flag `false`) with the
destination tracker at `(displacement = D, velocity = +c)` and the origin
tracker at `(displacement = 0, velocity = -c)`, and the time step, computed
once as `2 * D / c / 1e6`, is carried unchanged through every iteration;
each iteration advances both trackers with exactly that state-held step. -/
theorem c2_theorem (D : ℚ) (u : Universe) (k : Nat) :
    (simInit D u).movingObject = ⟨D, speedOfLight, u⟩ ∧
    (simInit D u).startingPoint = ⟨0, -speedOfLight, u⟩ ∧
    (simInit D u).terminationCondition = false ∧
    (simInit D u).TimeStep = 2 * D / speedOfLight / 1e6 ∧
    (simBody^[k] (simInit D u)).TimeStep = 2 * D / speedOfLight / 1e6 ∧
    (∀ s : SimState,
      (simBody s).movingObject = s.movingObject.Update s.TimeStep s.time ∧
      (simBody s).startingPoint = s.startingPoint.Update s.TimeStep s.time) :=
  ⟨rfl, rfl, rfl, rfl, iterate_TimeStep k (simInit D u), fun _ => ⟨rfl, rfl⟩⟩

/-- C3: the rate function a tracker uses is
`rate(t, d) = Hubble(t) * d - velocity`, and `Update` changes the
displacement exactly by handing that rate function to the integrator. -/
theorem c3_theorem (o : MovingObject) (Time Displacement TimeStep T : ℚ) :
    o.RateOfChangeOfDisplacement Time Displacement =
      o.Universe.Hubble Time * Displacement - o.Velocity ∧
    (o.Update TimeStep T).Displacement =
      RK4FirstOrder o.Displacement TimeStep
        (fun time d => o.Universe.Hubble time * d - o.Velocity) T :=
  ⟨rfl, rfl⟩

/-- C4: the linearly increasing model satisfies its boundary conditions
exactly: `Hubble 0` is the configured rate at time zero and
`Hubble TimeNowSeconds` is the configured present-day rate (in SI units,
exact rational arithmetic). -/
theorem c4_theorem :
    LinearIncreaseWithTimeUniverse.Hubble 0 = HubbleConstantTimeZero ∧
    LinearIncreaseWithTimeUniverse.Hubble TimeNowSeconds = hubbleToSi 70e3 := by
  constructor
  · simp [LinearIncreaseWithTimeUniverse]
  · norm_num [LinearIncreaseWithTimeUniverse, HubbleConstantRateOfIncrease,
      TimeNowSeconds, yearsToSeconds, hubbleToSi, HubbleConstantTimeZero,
      metresInParsec, parsecsInMpc]

/-- C5: the unit conversions round-trip exactly under composition. -/
theorem c5_theorem (x : ℚ) :
    metresToMpc (MpcToMetres x) = x ∧ secondsToYears (yearsToSeconds x) = x := by
  constructor
  · unfold metresToMpc MpcToMetres
    rw [div_eq_iff (by norm_num [metresInParsec, parsecsInMpc])]
    ring
  · unfold secondsToYears yearsToSeconds
    rw [div_eq_iff (by norm_num)]
    ring

/-- C8: across any sequence of `Update` calls, a tracker's velocity and its
model reference never change; only the displacement field is mutated. -/
theorem c8_theorem (o : MovingObject) (steps : List (ℚ × ℚ)) :
    (steps.foldl (fun a p => a.Update p.1 p.2) o).Velocity = o.Velocity ∧
    (steps.foldl (fun a p => a.Update p.1 p.2) o).Universe = o.Universe := by
  induction steps generalizing o with
  | nil => exact ⟨rfl, rfl⟩
  | cons p ps ih =>
    simp only [List.foldl_cons]
    exact ih (o.Update p.1 p.2)

/-- The tracker state after `k` integration steps, each advancing with step
`h` at the times `0, h, 2h, ...` — exactly the calls the loop body makes. -/
def updIter (o : MovingObject) (h : ℚ) : Nat → MovingObject
  | 0 => o
  | k + 1 => (updIter o h k).Update h ((k : ℚ) * h)

lemma getD_map_range (f : Nat → ℚ) (k i : Nat) (h : i < k) :
    ((List.range k).map f).getD i 0 = f i := by
  rw [List.getD_eq_getElem?_getD]
  simp [List.getElem?_map, List.getElem?_range h]

/-- Unrolling the whole driver loop body `k` times from the initial state:
simulation time, both trackers and all four sample lists in closed form. -/
lemma run_spec (D : ℚ) (u : Universe) (k : Nat) :
    (simBody^[k] (simInit D u)).time = (k : ℚ) * (simInit D u).TimeStep ∧
    (simBody^[k] (simInit D u)).movingObject =
      updIter (simInit D u).movingObject (simInit D u).TimeStep k ∧
    (simBody^[k] (simInit D u)).startingPoint =
      updIter (simInit D u).startingPoint (simInit D u).TimeStep k ∧
    (simBody^[k] (simInit D u)).Timestamps =
      (List.range k).map (fun (i : Nat) => secondsToYears ((i : ℚ) * (simInit D u).TimeStep)) ∧
    (simBody^[k] (simInit D u)).Displacements =
      (List.range k).map (fun i =>
        metresToMpc (updIter (simInit D u).movingObject (simInit D u).TimeStep (i + 1)).Displacement) ∧
    (simBody^[k] (simInit D u)).DistancesFromStart =
      (List.range k).map (fun i =>
        metresToMpc (updIter (simInit D u).startingPoint (simInit D u).TimeStep (i + 1)).Displacement) ∧
    (simBody^[k] (simInit D u)).StartAndEndSeparation =
      (List.range k).map (fun i =>
        metresToMpc (updIter (simInit D u).movingObject (simInit D u).TimeStep (i + 1)).Displacement +
        metresToMpc (updIter (simInit D u).startingPoint (simInit D u).TimeStep (i + 1)).Displacement) := by
  induction k with
  | zero =>
    refine ⟨?_, rfl, rfl, rfl, rfl, rfl, rfl⟩
    simp [simInit]
  | succ n ih =>
    obtain ⟨ht, hmo, hsp, hts, hd, hdfs, hsep⟩ := ih
    rw [Function.iterate_succ_apply']
    simp only [simBody, iterate_TimeStep, ht, hmo, hsp, hts, hd, hdfs, hsep]
    refine ⟨by push_cast; ring, rfl, rfl, ?_, ?_, ?_, ?_⟩ <;>
    · rw [List.range_succ, List.map_append]
      simp [updIter]

/-- The fuelled loop is some number `k ≤ fuel` of body iterations, and at
least one when the flag starts `false` and there is fuel. -/
lemma simLoop_exists_iterate (fuel : Nat) (s : SimState) :
    ∃ k, k ≤ fuel ∧ simLoop fuel s = simBody^[k] s ∧
      (s.terminationCondition = false → 0 < fuel → 0 < k) := by
  induction fuel generalizing s with
  | zero => exact ⟨0, le_refl 0, rfl, fun _ h => absurd h (lt_irrefl 0)⟩
  | succ n ih =>
    by_cases hc : s.terminationCondition = false
    · obtain ⟨k, hk, heq, _⟩ := ih (simBody s)
      refine ⟨k + 1, Nat.succ_le_succ hk, ?_, fun _ _ => Nat.succ_pos k⟩
      simp only [simLoop]
      rw [if_pos hc, heq, Function.iterate_succ_apply]
    · refine ⟨0, Nat.zero_le _, ?_, fun hf _ => absurd hf hc⟩
      simp only [simLoop]
      rw [if_neg hc]
      rfl

lemma simBody_Displacements_length (s : SimState) :
    (simBody s).Displacements.length = s.Displacements.length + 1 := by
  simp [simBody]

/-- C9: in every run, the four recorded sequences have equal length, that
length grows by exactly one per loop iteration, and at every index the
recorded start-to-end separation sample is the sum of the destination
displacement sample and the origin distance sample at the same index. -/
theorem c9_theorem (D : ℚ) (u : Universe) (fuel : Nat) :
    ((simLoop fuel (simInit D u)).Displacements.length =
        (simLoop fuel (simInit D u)).DistancesFromStart.length ∧
      (simLoop fuel (simInit D u)).Displacements.length =
        (simLoop fuel (simInit D u)).StartAndEndSeparation.length ∧
      (simLoop fuel (simInit D u)).Displacements.length =
        (simLoop fuel (simInit D u)).Timestamps.length) ∧
    (∀ i, i < (simLoop fuel (simInit D u)).Displacements.length →
      (simLoop fuel (simInit D u)).StartAndEndSeparation.getD i 0 =
        (simLoop fuel (simInit D u)).Displacements.getD i 0 +
          (simLoop fuel (simInit D u)).DistancesFromStart.getD i 0) ∧
    (∀ k, (simBody^[k] (simInit D u)).Displacements.length = k ∧
      (simBody (simBody^[k] (simInit D u))).Displacements.length = k + 1) := by
  obtain ⟨k, _, heq, _⟩ := simLoop_exists_iterate fuel (simInit D u)
  obtain ⟨_, _, _, hts, hd, hdfs, hsep⟩ := run_spec D u k
  refine ⟨?_, ?_, ?_⟩
  · rw [heq, hts, hd, hdfs, hsep]
    simp
  · intro i hi
    rw [heq, hd] at hi
    simp only [List.length_map, List.length_range] at hi
    rw [heq, hd, hdfs, hsep, getD_map_range _ _ _ hi, getD_map_range _ _ _ hi,
      getD_map_range _ _ _ hi]
  · intro j
    obtain ⟨_, _, _, _, hdj, _, _⟩ := run_spec D u j
    constructor
    · rw [hdj]
      simp
    · rw [simBody_Displacements_length, hdj]
      simp

/-- C9, witness at initial separation `1`, the static model, fuel `1`,
sample index `0`. -/
theorem c9_witness :
    (simLoop 1 (simInit 1 StaticUniverse)).StartAndEndSeparation.getD 0 0 =
      (simLoop 1 (simInit 1 StaticUniverse)).Displacements.getD 0 0 +
        (simLoop 1 (simInit 1 StaticUniverse)).DistancesFromStart.getD 0 0 := by
  have h := c9_theorem 1 StaticUniverse 1
  refine h.2.1 0 ?_
  have hlen : (simBody^[1] (simInit 1 StaticUniverse)).Displacements.length = 1 :=
    (h.2.2 1).1
  exact Nat.lt_of_lt_of_eq Nat.zero_lt_one hlen.symm

/-- C10: in every run with at least one unit of fuel, the sample sequence is
non-empty (the body runs before any termination check), the first recorded
timestamp is `0`, the timestamp at index `i` is `i * step` converted to
years (the time before the `i`-th advance), while every displacement
quantity recorded at index `i` comes from the tracker states after `i + 1`
integration steps: the destination sample is the destination tracker's
state, the origin-distance sample is the origin tracker's state, and the
separation sample is built from both, all after `i + 1` steps. -/
theorem c10_theorem (D : ℚ) (u : Universe) (fuel : Nat) (hfuel : 0 < fuel) :
    (simLoop fuel (simInit D u)).Timestamps ≠ [] ∧
    (simLoop fuel (simInit D u)).Timestamps.getD 0 0 = 0 ∧
    (∀ i, i < (simLoop fuel (simInit D u)).Timestamps.length →
      (simLoop fuel (simInit D u)).Timestamps.getD i 0 =
        secondsToYears ((i : ℚ) * (simInit D u).TimeStep)) ∧
    (∀ i, i < (simLoop fuel (simInit D u)).Displacements.length →
      (simLoop fuel (simInit D u)).Displacements.getD i 0 =
        metresToMpc
          (updIter (simInit D u).movingObject (simInit D u).TimeStep (i + 1)).Displacement) ∧
    (∀ i, i < (simLoop fuel (simInit D u)).DistancesFromStart.length →
      (simLoop fuel (simInit D u)).DistancesFromStart.getD i 0 =
        metresToMpc
          (updIter (simInit D u).startingPoint (simInit D u).TimeStep (i + 1)).Displacement) ∧
    (∀ i, i < (simLoop fuel (simInit D u)).StartAndEndSeparation.length →
      (simLoop fuel (simInit D u)).StartAndEndSeparation.getD i 0 =
        metresToMpc
          (updIter (simInit D u).movingObject (simInit D u).TimeStep (i + 1)).Displacement +
        metresToMpc
          (updIter (simInit D u).startingPoint (simInit D u).TimeStep (i + 1)).Displacement) := by
  obtain ⟨k, _, heq, hpos⟩ := simLoop_exists_iterate fuel (simInit D u)
  have hk : 0 < k := hpos rfl hfuel
  obtain ⟨_, _, _, hts, hd, hdfs, hsep⟩ := run_spec D u k
  refine ⟨?_, ?_, ?_, ?_, ?_, ?_⟩
  · rw [heq, hts]
    apply List.ne_nil_of_length_pos
    simpa using hk
  · rw [heq, hts, getD_map_range _ _ _ (by simpa using hk)]
    norm_num [secondsToYears]
  · intro i hi
    rw [heq, hts] at hi
    simp only [List.length_map, List.length_range] at hi
    rw [heq, hts, getD_map_range _ _ _ hi]
  · intro i hi
    rw [heq, hd] at hi
    simp only [List.length_map, List.length_range] at hi
    rw [heq, hd, getD_map_range _ _ _ hi]
  · intro i hi
    rw [heq, hdfs] at hi
    simp only [List.length_map, List.length_range] at hi
    rw [heq, hdfs, getD_map_range _ _ _ hi]
  · intro i hi
    rw [heq, hsep] at hi
    simp only [List.length_map, List.length_range] at hi
    rw [heq, hsep, getD_map_range _ _ _ hi]

/-- C10, witness at initial separation `1`, the static model, fuel `1`. -/
theorem c10_witness : (simLoop 1 (simInit 1 StaticUniverse)).Timestamps ≠ [] :=
  (c10_theorem 1 StaticUniverse 1 Nat.one_pos).1

/-- C6, counterexample. The claim says the visualization collaborator
receives exactly three named curves, among them "distance from start". The
code computes `DistancesFromStart` but never plots it: on the concrete run
with initial separation `100` Mpc and the static model, the plot holds
exactly two curves, and no curve is labelled "distance from start". -/
theorem c6_counterexample :
    (SimulateConstantVelocityTravel 1 (MpcToMetres 100) "static").map
        (fun r => r.2.curves.map Curve.label) =
      some ["distance to destination", "distance from start to end"] ∧
    (SimulateConstantVelocityTravel 1 (MpcToMetres 100) "static").map
        (fun r => decide ("distance from start" ∈ r.2.curves.map Curve.label)) =
      some false := by
  constructor <;> rfl

/-- C6, amended: for every completed run under a registered model, the
visualization collaborator receives the model's descriptive name as title,
axis labels "time (years)" and "displacement (Mpc)", and exactly two named
curves — "distance to destination" (the destination displacement samples)
and "distance from start to end" (the start-to-end separation samples),
both against the recorded timestamps. -/
theorem c6_theorem (fuel : Nat) (D : ℚ) (key : String) (u : Universe)
    (h : universes key = some u) :
    ∃ s, SimulateConstantVelocityTravel fuel D key =
      some (s,
        { curves :=
            [⟨"distance to destination", s.Timestamps, s.Displacements⟩,
             ⟨"distance from start to end", s.Timestamps, s.StartAndEndSeparation⟩]
          xlabel := "time (years)"
          ylabel := "displacement (Mpc)"
          title := u.name }) := by
  refine ⟨simLoop fuel (simInit D u), ?_⟩
  rw [SimulateConstantVelocityTravel, h]
  rfl

/-- C6, witness for the amended theorem: the static model at separation
`100` Mpc with fuel `1`. -/
theorem c6_witness :
    ∃ s, SimulateConstantVelocityTravel 1 (MpcToMetres 100) "static" =
      some (s,
        { curves :=
            [⟨"distance to destination", s.Timestamps, s.Displacements⟩,
             ⟨"distance from start to end", s.Timestamps, s.StartAndEndSeparation⟩]
          xlabel := "time (years)"
          ylabel := "displacement (Mpc)"
          title := StaticUniverse.name }) :=
  c6_theorem 1 (MpcToMetres 100) "static" StaticUniverse rfl

/-- C7: when the positional argument is absent, `main` fails with the
index error; when it does not parse as a number, `main` fails with the
value error — in both cases no simulation output is produced; otherwise the
argument is interpreted as megaparsecs, converted to metres with
`MpcToMetres`, and both runs are performed on that converted separation. -/
theorem c7_theorem (parseFloat : String → Option ℚ) (fuel : Nat) (argv : List String) :
    (argv.get? 1 = none → main parseFloat fuel argv = .error .missingArg) ∧
    (∀ a, argv.get? 1 = some a → parseFloat a = none →
      main parseFloat fuel argv = .error .nonNumeric) ∧
    (∀ a q, argv.get? 1 = some a → parseFloat a = some q →
      ∃ r1 r2,
        SimulateConstantVelocityTravel fuel (MpcToMetres q) "static" = some r1 ∧
        SimulateConstantVelocityTravel fuel (MpcToMetres q) "linear" = some r2 ∧
        main parseFloat fuel argv = .ok [r1, r2]) := by
  refine ⟨?_, ?_, ?_⟩
  · intro h
    rw [List.get?_eq_getElem?] at h
    simp [main, h]
  · intro a h1 h2
    rw [List.get?_eq_getElem?] at h1
    simp [main, h1, h2]
  · intro a q h1 h2
    rw [List.get?_eq_getElem?] at h1
    refine ⟨_, _, rfl, rfl, ?_⟩
    simp only [main, List.get?_eq_getElem?, h1, h2]
    rfl

/-- C7, witness: all three branches exercised at concrete arguments. -/
theorem c7_witness :
    main (fun _ => none) 1 ["HubblePrinciple.py"] = .error .missingArg ∧
    main (fun _ => none) 1 ["HubblePrinciple.py", "abc"] = .error .nonNumeric ∧
    ∃ r1 r2,
      SimulateConstantVelocityTravel 1 (MpcToMetres 100) "static" = some r1 ∧
      SimulateConstantVelocityTravel 1 (MpcToMetres 100) "linear" = some r2 ∧
      main (fun _ => some 100) 1 ["HubblePrinciple.py", "100"] = .ok [r1, r2] :=
  ⟨(c7_theorem (fun _ => none) 1 ["HubblePrinciple.py"]).1 rfl,
   (c7_theorem (fun _ => none) 1 ["HubblePrinciple.py", "abc"]).2.1 "abc" rfl rfl,
   (c7_theorem (fun _ => some 100) 1 ["HubblePrinciple.py", "100"]).2.2 "100" 100 rfl rfl⟩

end Hubble
